import Mathlib

/-!
Verification of the TeaBankBot ledger core (`src/services/bank_service.py`,
`src/repositories/account_repo.py`, `src/repositories/transaction_repo.py`,
`src/models/account.py`, `src/models/transaction.py`).

The SQLite-backed stores are modelled as lists kept in insertion order
(AUTOINCREMENT row ids are strictly increasing, so insertion order is id
order); each service operation is a function from a `BankState` to the new
`BankState` paired with an `Except` result, mirroring the Python method
bodies statement by statement, including the mutations that commit before a
later statement raises (e.g. receiver auto-creation inside `transfer`).
`datetime.now()` is modelled by a logical clock `now` on the state.
-/

namespace TeaBank

/-- `src/models/account.py` `Account` dataclass: the `id` column is the
SQLite rowid; balances are integers in every operation. -/
structure Account where
  id : Nat
  account_no : String
  name : String
  amount : Int
  pending : Int
  share : Int
deriving Repr, DecidableEq

/-- `src/models/transaction.py` `Transaction` dataclass; `time` is the
creation tick of the logical clock. -/
structure Transaction where
  id : Nat
  type : String
  time : Nat
  sender_account : String
  receiver_account : String
  status : String
  amount : Int
  operator : Option String
  memo : String
deriving Repr, DecidableEq

/-- The two SQLite tables plus the AUTOINCREMENT counters and the clock. -/
structure BankState where
  accounts : List Account
  transactions : List Transaction
  nextAccountId : Nat
  nextTxnId : Nat
  now : Nat
deriving Repr, DecidableEq

/-- Empty database; SQLite AUTOINCREMENT starts handing out 1. -/
def initState : BankState :=
  { accounts := [], transactions := [], nextAccountId := 1, nextTxnId := 1, now := 0 }

/-- `src/models/exceptions.py` error taxonomy, plus `pythonTypeError` for the
`TypeError` raised when `deny_transaction`'s fallback branch calls
`AccountRepository.update_pending` with the keyword argument `pending_delta`,
which that method does not accept (`account_repo.py` line 105). -/
inductive BankError where
  | accountNotFound
  | accountAlreadyExists
  | invalidAmount
  | insufficientBalance
  | invalidTransfer
  | transactionNotFound
  | invalidTransactionStatus
  | pythonTypeError
deriving Repr, DecidableEq

/-- `BankService.__init__` configuration knobs (defaults `min_amount=1`,
`max_amount=10^12`, `min_balance=-10^9`); `min_amount` is stored but never
read by any method, exactly as in the source. -/
structure Config where
  min_amount : Int
  max_amount : Int
  min_balance : Int
deriving Repr, DecidableEq

def defaultConfig : Config := ⟨1, 1000000000000, -1000000000⟩

/-- `BankService._get_account_no`: Python `user_id[-9:]`. -/
def getAccountNo (user_id : String) : String :=
  ⟨user_id.data.drop (user_id.data.length - 9)⟩

/-- `AccountRepository.find_by_account_no`: first row matching the key
(the `Account` column is UNIQUE, so at most one row matches). -/
def findByAccountNo (l : List Account) (no : String) : Option Account :=
  l.find? (fun a => a.account_no == no)

/-- `AccountRepository.exists`. -/
def accountExists (l : List Account) (no : String) : Bool :=
  (findByAccountNo l no).isSome

/-- SQL `UPDATE Accounts SET ... WHERE Account = ?`: rewrite every matching
row with `f`. -/
def adjustAccounts (l : List Account) (no : String) (f : Account → Account) :
    List Account :=
  l.map (fun a => if a.account_no == no then f a else a)

/-- `AccountRepository.update_pending`. -/
def updatePending (l : List Account) (no : String) (delta : Int) : List Account :=
  adjustAccounts l no (fun a => { a with pending := a.pending + delta })

/-- `AccountRepository.update_amount`. -/
def updateAmount (l : List Account) (no : String) (delta : Int) : List Account :=
  adjustAccounts l no (fun a => { a with amount := a.amount + delta })

/-- `AccountRepository.update_pending_and_amount`. -/
def updatePendingAndAmount (l : List Account) (no : String)
    (pending_delta amount_delta : Int) : List Account :=
  adjustAccounts l no
    (fun a => { a with pending := a.pending + pending_delta,
                       amount := a.amount + amount_delta })

/-- `TransactionRepository.find_by_id`. -/
def findTxnById (l : List Transaction) (txn_id : Nat) : Option Transaction :=
  l.find? (fun t => t.id == txn_id)

/-- `TransactionRepository.find_pending_transactions`: SQL
`WHERE Status = 'pending' LIMIT ?` — a full table scan in rowid
(= insertion) order, capped at `limit`. -/
def findPendingTransactions (l : List Transaction) (limit : Nat) :
    List Transaction :=
  (l.filter (fun t => t.status == "pending")).take limit

/-- Order used by `find_by_account`'s `ORDER BY TransactionID DESC`. -/
def newestFirst (t u : Transaction) : Prop := u.id ≤ t.id

instance : DecidableRel newestFirst :=
  fun t u => inferInstanceAs (Decidable (u.id ≤ t.id))

instance : IsTotal Transaction newestFirst :=
  ⟨fun a b => Nat.le_total b.id a.id⟩

instance : IsTrans Transaction newestFirst :=
  ⟨fun _ _ _ h h' => Nat.le_trans h' h⟩

/-- `TransactionRepository.find_by_account`: sender-or-receiver match,
status ≠ 'denied', `ORDER BY TransactionID DESC LIMIT ?`. -/
def findByAccount (l : List Transaction) (no : String) (limit : Nat) :
    List Transaction :=
  (List.insertionSort newestFirst
    (l.filter (fun t =>
      (t.sender_account == no || t.receiver_account == no) &&
        t.status != "denied"))).take limit

/-- `TransactionRepository.update_status`: unconditional status+operator
write on the matching row. -/
def updateStatus (l : List Transaction) (txn_id : Nat) (status operator : String) :
    List Transaction :=
  l.map (fun t => if t.id == txn_id then
    { t with status := status, operator := some operator } else t)

/-- `BankService.create_account`: derive account number, fail if present,
else insert a zero-balance row and return the re-fetched row. -/
def create_account (s : BankState) (user_id name : String) :
    BankState × Except BankError (Option Account) :=
  let no := getAccountNo user_id
  if accountExists s.accounts no then
    (s, .error .accountAlreadyExists)
  else
    let s' := { s with
      accounts := s.accounts ++ [⟨s.nextAccountId, no, name, 0, 0, 0⟩],
      nextAccountId := s.nextAccountId + 1 }
    (s', .ok (findByAccountNo s'.accounts no))

/-- `BankService.get_balance`. -/
def get_balance (s : BankState) (user_id : String) :
    Except BankError (Int × Int) :=
  match findByAccountNo s.accounts (getAccountNo user_id) with
  | none => .error .accountNotFound
  | some a => .ok (a.amount, a.pending)

/-- `BankService.deposit`: resolve account, validate
`0 < amount ≤ max_amount`, insert a pending transaction, raise pending,
return the re-fetched transaction. -/
def deposit (cfg : Config) (s : BankState) (user_id : String) (amount : Int)
    (memo : String) : BankState × Except BankError (Option Transaction) :=
  let no := getAccountNo user_id
  match findByAccountNo s.accounts no with
  | none => (s, .error .accountNotFound)
  | some _ =>
    if amount < 0 then (s, .error .invalidAmount)
    else if amount = 0 then (s, .error .invalidAmount)
    else if amount > cfg.max_amount then (s, .error .invalidAmount)
    else
      let txn : Transaction :=
        ⟨s.nextTxnId, "deposit", s.now, no, no, "pending", amount, none, memo⟩
      let s1 := { s with
        transactions := s.transactions ++ [txn],
        nextTxnId := s.nextTxnId + 1, now := s.now + 1 }
      let s2 := { s1 with accounts := updatePending s1.accounts no amount }
      (s2, .ok (findTxnById s2.transactions txn.id))

/-- `BankService.request`: like `deposit` but the ceiling is the hardcoded
`max_request_amount = 100_000_000_000`, type `"request"`. -/
def request (s : BankState) (user_id : String) (amount : Int) (memo : String) :
    BankState × Except BankError (Option Transaction) :=
  let no := getAccountNo user_id
  match findByAccountNo s.accounts no with
  | none => (s, .error .accountNotFound)
  | some _ =>
    if amount < 0 then (s, .error .invalidAmount)
    else if amount = 0 then (s, .error .invalidAmount)
    else if amount > 100000000000 then (s, .error .invalidAmount)
    else
      let txn : Transaction :=
        ⟨s.nextTxnId, "request", s.now, no, no, "pending", amount, none, memo⟩
      let s1 := { s with
        transactions := s.transactions ++ [txn],
        nextTxnId := s.nextTxnId + 1, now := s.now + 1 }
      let s2 := { s1 with accounts := updatePending s1.accounts no amount }
      (s2, .ok (findTxnById s2.transactions txn.id))

/-- `BankService.withdraw`: amount checks, then
`available = amount − pending`; insufficiency check, then a pending
transaction and `pending -= amount`. -/
def withdraw (cfg : Config) (s : BankState) (user_id : String) (amount : Int)
    (memo : String) : BankState × Except BankError (Option Transaction) :=
  let no := getAccountNo user_id
  match findByAccountNo s.accounts no with
  | none => (s, .error .accountNotFound)
  | some a =>
    if amount < 0 then (s, .error .invalidAmount)
    else if amount = 0 then (s, .error .invalidAmount)
    else if amount > cfg.max_amount then (s, .error .invalidAmount)
    else if amount > a.amount - a.pending then (s, .error .insufficientBalance)
    else
      let txn : Transaction :=
        ⟨s.nextTxnId, "withdraw", s.now, no, no, "pending", amount, none, memo⟩
      let s1 := { s with
        transactions := s.transactions ++ [txn],
        nextTxnId := s.nextTxnId + 1, now := s.now + 1 }
      let s2 := { s1 with accounts := updatePending s1.accounts no (-amount) }
      (s2, .ok (findTxnById s2.transactions txn.id))

/-- `BankService.donate`: structurally `withdraw` with type `"donate"`. -/
def donate (cfg : Config) (s : BankState) (user_id : String) (amount : Int)
    (memo : String) : BankState × Except BankError (Option Transaction) :=
  let no := getAccountNo user_id
  match findByAccountNo s.accounts no with
  | none => (s, .error .accountNotFound)
  | some a =>
    if amount < 0 then (s, .error .invalidAmount)
    else if amount = 0 then (s, .error .invalidAmount)
    else if amount > cfg.max_amount then (s, .error .invalidAmount)
    else if amount > a.amount - a.pending then (s, .error .insufficientBalance)
    else
      let txn : Transaction :=
        ⟨s.nextTxnId, "donate", s.now, no, no, "pending", amount, none, memo⟩
      let s1 := { s with
        transactions := s.transactions ++ [txn],
        nextTxnId := s.nextTxnId + 1, now := s.now + 1 }
      let s2 := { s1 with accounts := updatePending s1.accounts no (-amount) }
      (s2, .ok (findTxnById s2.transactions txn.id))

/-- `BankService.transfer`: resolve sender, auto-create a missing receiver
(this mutation commits even if a later check raises), reject self-transfer,
validate `amount > 0` only (no ceiling check in the source), check the
settled balance and the minimum-balance floor against the pre-fetched
`sender` row, move the funds, and insert a transaction already in `"done"`
status. -/
def transfer (cfg : Config) (s : BankState) (from_user to_user : String)
    (amount : Int) (memo : String) :
    BankState × Except BankError (Option Transaction) :=
  let from_no := getAccountNo from_user
  let to_no := getAccountNo to_user
  match findByAccountNo s.accounts from_no with
  | none => (s, .error .accountNotFound)
  | some sender =>
    let s1 := if accountExists s.accounts to_no then s
              else (create_account s to_user to_user).1
    if from_no = to_no then (s1, .error .invalidTransfer)
    else if amount < 0 then (s1, .error .invalidAmount)
    else if amount = 0 then (s1, .error .invalidAmount)
    else if amount > sender.amount then (s1, .error .insufficientBalance)
    else if sender.amount - amount < cfg.min_balance then
      (s1, .error .insufficientBalance)
    else
      let s2 := { s1 with
        accounts := updateAmount (updateAmount s1.accounts from_no (-amount))
          to_no amount }
      let txn : Transaction :=
        ⟨s2.nextTxnId, "transfer", s2.now, from_no, to_no, "done", amount,
          none, memo⟩
      let s3 := { s2 with
        transactions := s2.transactions ++ [txn],
        nextTxnId := s2.nextTxnId + 1, now := s2.now + 1 }
      (s3, .ok (findTxnById s3.transactions txn.id))

/-- `BankService.approve_transaction`: fetch, require `"pending"`, settle
the balances on the receiver account by type, then mark `"done"`. The
fallback branch mirrors the source's `else` for unexpected types. -/
def approve_transaction (s : BankState) (txn_id : Nat) (operator : String) :
    BankState × Except BankError Unit :=
  match findTxnById s.transactions txn_id with
  | none => (s, .error .transactionNotFound)
  | some txn =>
    if txn.status ≠ "pending" then (s, .error .invalidTransactionStatus)
    else
      let no := txn.receiver_account
      let amount := txn.amount
      let accounts' :=
        if txn.type = "deposit" ∨ txn.type = "request" then
          updatePendingAndAmount s.accounts no (-amount) amount
        else if txn.type = "withdraw" ∨ txn.type = "donate" then
          updatePendingAndAmount s.accounts no amount (-amount)
        else if txn.sender_account ≠ txn.receiver_account then
          updatePendingAndAmount
            (updatePendingAndAmount s.accounts txn.sender_account amount (-amount))
            txn.receiver_account (-amount) amount
        else s.accounts
      ({ s with accounts := accounts',
                transactions := updateStatus s.transactions txn_id "done" operator },
       .ok ())

/-- `BankService.deny_transaction`: fetch, require `"pending"`, reverse the
pending delta by type, then mark `"denied"`. In the fallback branch with
`sender ≠ receiver` the source calls `update_pending` with the keyword
argument `pending_delta`, which `AccountRepository.update_pending` does not
accept: Python raises `TypeError` before any mutation, modelled as
`pythonTypeError` with the state unchanged. -/
def deny_transaction (s : BankState) (txn_id : Nat) (operator : String) :
    BankState × Except BankError Unit :=
  match findTxnById s.transactions txn_id with
  | none => (s, .error .transactionNotFound)
  | some txn =>
    if txn.status ≠ "pending" then (s, .error .invalidTransactionStatus)
    else
      let no := txn.receiver_account
      let amount := txn.amount
      if txn.type = "deposit" ∨ txn.type = "request" then
        ({ s with accounts := updatePending s.accounts no (-amount),
                  transactions := updateStatus s.transactions txn_id "denied" operator },
         .ok ())
      else if txn.type = "withdraw" ∨ txn.type = "donate" then
        ({ s with accounts := updatePending s.accounts no amount,
                  transactions := updateStatus s.transactions txn_id "denied" operator },
         .ok ())
      else if txn.sender_account ≠ txn.receiver_account then
        (s, .error .pythonTypeError)
      else
        ({ s with
            transactions := updateStatus s.transactions txn_id "denied" operator },
         .ok ())

/-- `BankService.pull_transactions`. -/
def pull_transactions (s : BankState) (user_id : String) (n : Nat) :
    List Transaction :=
  findByAccount s.transactions (getAccountNo user_id) n

/-- `BankService.get_pending_transactions`. -/
def get_pending_transactions (s : BankState) (limit : Nat) : List Transaction :=
  findPendingTransactions s.transactions limit

/-! ### Reachability and the pending-transaction shape invariant -/

/-- Shape of every pending transaction the service can create: sender and
receiver coincide and the type is one of the four audited operations
(transfers are inserted already `done`). -/
def PendingOk (t : Transaction) : Prop :=
  t.status = "pending" →
    t.sender_account = t.receiver_account ∧
      (t.type = "deposit" ∨ t.type = "withdraw" ∨ t.type = "request" ∨
        t.type = "donate")

def TxnInv (s : BankState) : Prop := ∀ t ∈ s.transactions, PendingOk t

/-- States reachable from the empty database through the public service
operations (with any configuration). -/
inductive Reachable : BankState → Prop where
  | init : Reachable initState
  | step_create {s} (u nm : String) :
      Reachable s → Reachable (create_account s u nm).1
  | step_deposit {s} (cfg : Config) (u : String) (n : Int) (m : String) :
      Reachable s → Reachable (deposit cfg s u n m).1
  | step_withdraw {s} (cfg : Config) (u : String) (n : Int) (m : String) :
      Reachable s → Reachable (withdraw cfg s u n m).1
  | step_request {s} (u : String) (n : Int) (m : String) :
      Reachable s → Reachable (request s u n m).1
  | step_donate {s} (cfg : Config) (u : String) (n : Int) (m : String) :
      Reachable s → Reachable (donate cfg s u n m).1
  | step_transfer {s} (cfg : Config) (fu tu : String) (n : Int) (m : String) :
      Reachable s → Reachable (transfer cfg s fu tu n m).1
  | step_approve {s} (id : Nat) (op : String) :
      Reachable s → Reachable (approve_transaction s id op).1
  | step_deny {s} (id : Nat) (op : String) :
      Reachable s → Reachable (deny_transaction s id op).1

/-- A concrete populated state used to instantiate the theorems above. -/
def wState : BankState :=
  { accounts := [⟨1, "234567890", "tester", 500, 0, 0⟩],
    transactions := [], nextAccountId := 2, nextTxnId := 1, now := 0 }

/-- A concrete state holding an already-settled (`done`) transaction. -/
def wStateDone : BankState :=
  { accounts := [⟨1, "234567890", "tester", 500, 0, 0⟩],
    transactions := [⟨1, "deposit", 0, "234567890", "234567890", "done", 5,
      some "admin", ""⟩],
    nextAccountId := 2, nextTxnId := 2, now := 1 }

/-- A concrete state whose only account holds 2×10^12 settled. -/
def cexState : BankState :=
  { accounts := [⟨1, "sender123", "S", 2000000000000, 0, 0⟩],
    transactions := [], nextAccountId := 2, nextTxnId := 1, now := 0 }

/-! ### Store-level lemmas -/

theorem findByAccountNo_adjust_self (l : List Account) (no : String)
    (f : Account → Account) (hf : ∀ a, (f a).account_no = a.account_no) :
    findByAccountNo (adjustAccounts l no f) no = (findByAccountNo l no).map f := by
  induction l with
  | nil => rfl
  | cons a l ih =>
    simp only [adjustAccounts, findByAccountNo, List.map_cons] at ih ⊢
    by_cases h : (a.account_no == no) = true
    · have hfa : ((f a).account_no == no) = true := by rw [hf]; exact h
      rw [if_pos h, List.find?_cons, List.find?_cons, h, hfa]
      rfl
    · have h' : (a.account_no == no) = false := by simpa using h
      rw [if_neg h, List.find?_cons, List.find?_cons, h']
      exact ih

theorem findByAccountNo_adjust_ne (l : List Account) (no no' : String)
    (f : Account → Account) (hf : ∀ a, (f a).account_no = a.account_no)
    (h : no' ≠ no) :
    findByAccountNo (adjustAccounts l no f) no' = findByAccountNo l no' := by
  induction l with
  | nil => rfl
  | cons a l ih =>
    simp only [adjustAccounts, findByAccountNo, List.map_cons] at ih ⊢
    have hhead : ((if (a.account_no == no) = true then f a else a).account_no == no')
        = (a.account_no == no') := by
      by_cases hh : (a.account_no == no) = true
      · rw [if_pos hh, hf]
      · rw [if_neg hh]
    rw [List.find?_cons, List.find?_cons, hhead]
    by_cases hp : (a.account_no == no') = true
    · have hno : ¬ ((a.account_no == no) = true) := by
        simp only [beq_iff_eq] at hp ⊢
        rw [hp]
        exact h
      rw [hp, if_neg hno]
    · have hp' : (a.account_no == no') = false := by simpa using hp
      rw [hp']
      exact ih

theorem findByAccountNo_updatePending_self (l : List Account) (no : String)
    (d : Int) :
    findByAccountNo (updatePending l no d) no =
      (findByAccountNo l no).map (fun a => { a with pending := a.pending + d }) :=
  findByAccountNo_adjust_self l no _ (fun _ => rfl)

theorem findByAccountNo_updateAmount_self (l : List Account) (no : String)
    (d : Int) :
    findByAccountNo (updateAmount l no d) no =
      (findByAccountNo l no).map (fun a => { a with amount := a.amount + d }) :=
  findByAccountNo_adjust_self l no _ (fun _ => rfl)

theorem findByAccountNo_updatePendingAndAmount_self (l : List Account)
    (no : String) (pd ad : Int) :
    findByAccountNo (updatePendingAndAmount l no pd ad) no =
      (findByAccountNo l no).map
        (fun a => { a with pending := a.pending + pd, amount := a.amount + ad }) :=
  findByAccountNo_adjust_self l no _ (fun _ => rfl)

theorem findByAccountNo_updateAmount_ne (l : List Account) (no no' : String)
    (d : Int) (h : no' ≠ no) :
    findByAccountNo (updateAmount l no d) no' = findByAccountNo l no' :=
  findByAccountNo_adjust_ne l no no' _ (fun _ => rfl) h

theorem findTxnById_append_fresh (l : List Transaction) (t : Transaction)
    (h : ∀ u ∈ l, u.id < t.id) :
    findTxnById (l ++ [t]) t.id = some t := by
  unfold findTxnById
  rw [List.find?_append]
  have h1 : l.find? (fun u => u.id == t.id) = none := by
    rw [List.find?_eq_none]
    intro x hx
    simp only [beq_iff_eq]
    exact Nat.ne_of_lt (h x hx)
  rw [h1]
  simp [List.find?]


/-! ### Claim theorems -/

/-- C7: for an existing account, `deposit` succeeds exactly when
`1 ≤ amount ≤ 10^12` (the ceiling itself succeeds) and fails with
`InvalidAmount` exactly when `amount ≤ 0` or `amount > 10^12`; `request` is
identical with ceiling `10^11`. -/
theorem deposit_request_amount_bounds (s : BankState) (u m : String) (n : Int)
    (a : Account)
    (hacc : findByAccountNo s.accounts (getAccountNo u) = some a) :
    ((deposit defaultConfig s u n m).2 = .error .invalidAmount ↔
      n ≤ 0 ∨ n > 1000000000000) ∧
    ((∃ r, (deposit defaultConfig s u n m).2 = .ok r) ↔
      1 ≤ n ∧ n ≤ 1000000000000) ∧
    ((request s u n m).2 = .error .invalidAmount ↔
      n ≤ 0 ∨ n > 100000000000) ∧
    ((∃ r, (request s u n m).2 = .ok r) ↔
      1 ≤ n ∧ n ≤ 100000000000) := by
  simp only [deposit, request, defaultConfig, hacc]
  refine ⟨?_, ?_, ?_, ?_⟩ <;>
    · split_ifs <;> simp <;> omega

/-- C5: for an existing account and a valid amount (`1 ≤ n ≤ max`),
`withdraw` fails with `InsufficientBalance` exactly when
`n > amount − pending`, and on that failure the whole state is unchanged
(no balance mutation, no transaction row). -/
theorem withdraw_insufficient_balance (s : BankState) (u m : String) (n : Int)
    (a : Account)
    (hacc : findByAccountNo s.accounts (getAccountNo u) = some a)
    (h1 : 1 ≤ n) (h2 : n ≤ 1000000000000) :
    ((withdraw defaultConfig s u n m).2 = .error .insufficientBalance ↔
      n > a.amount - a.pending) ∧
    (n > a.amount - a.pending →
      withdraw defaultConfig s u n m = (s, .error .insufficientBalance)) := by
  simp only [withdraw, defaultConfig, hacc]
  rw [if_neg (by omega), if_neg (by omega), if_neg (by omega)]
  constructor
  · split_ifs <;> simp <;> omega
  · intro h
    rw [if_pos (by omega)]

/-- C6: approving or denying a transaction whose status is not `pending`
fails with `InvalidTransactionStatus` and leaves the entire state (all
accounts and all transaction rows) unchanged. -/
theorem nonpending_audit_rejected (s : BankState) (txn_id : Nat) (op : String)
    (t : Transaction)
    (hfind : findTxnById s.transactions txn_id = some t)
    (hst : t.status ≠ "pending") :
    approve_transaction s txn_id op = (s, .error .invalidTransactionStatus) ∧
    deny_transaction s txn_id op = (s, .error .invalidTransactionStatus) := by
  constructor
  · simp only [approve_transaction, hfind]
    rw [if_pos hst]
  · simp only [deny_transaction, hfind]
    rw [if_pos hst]

/-- C1: from an account with `pending = 0` and any valid `n`, `deposit`
followed by `approve_transaction` of the created transaction leaves
`pending = 0` and raises `amount` by `n`; `deposit` followed by
`deny_transaction` instead leaves `pending = 0` and `amount` unchanged. -/
theorem deposit_roundtrip_approve_deny (s : BankState) (u m op : String)
    (n : Int) (a : Account)
    (hacc : findByAccountNo s.accounts (getAccountNo u) = some a)
    (hpend : a.pending = 0)
    (h1 : 1 ≤ n) (h2 : n ≤ 1000000000000)
    (hfresh : ∀ t ∈ s.transactions, t.id < s.nextTxnId) :
    ∃ s1 txn,
      deposit defaultConfig s u n m = (s1, .ok (some txn)) ∧
      ((approve_transaction s1 txn.id op).2 = .ok () ∧
        ∃ a', findByAccountNo (approve_transaction s1 txn.id op).1.accounts
            (getAccountNo u) = some a' ∧ a'.pending = 0 ∧
            a'.amount = a.amount + n) ∧
      ((deny_transaction s1 txn.id op).2 = .ok () ∧
        ∃ a', findByAccountNo (deny_transaction s1 txn.id op).1.accounts
            (getAccountNo u) = some a' ∧ a'.pending = 0 ∧
            a'.amount = a.amount) := by
  have hfind : findTxnById
      (s.transactions ++
        [⟨s.nextTxnId, "deposit", s.now, getAccountNo u, getAccountNo u,
          "pending", n, none, m⟩]) s.nextTxnId = some
      ⟨s.nextTxnId, "deposit", s.now, getAccountNo u, getAccountNo u,
        "pending", n, none, m⟩ :=
    findTxnById_append_fresh _ _ hfresh
  have e1 : findByAccountNo (updatePending s.accounts (getAccountNo u) n)
      (getAccountNo u) = some { a with pending := a.pending + n } := by
    rw [findByAccountNo_updatePending_self, hacc]; rfl
  refine ⟨{ s with
      accounts := updatePending s.accounts (getAccountNo u) n,
      transactions := s.transactions ++
        [⟨s.nextTxnId, "deposit", s.now, getAccountNo u, getAccountNo u,
          "pending", n, none, m⟩],
      nextTxnId := s.nextTxnId + 1, now := s.now + 1 },
    ⟨s.nextTxnId, "deposit", s.now, getAccountNo u, getAccountNo u,
      "pending", n, none, m⟩, ?_, ?_, ?_⟩
  · simp only [deposit, hacc]
    rw [if_neg (by omega), if_neg (by omega),
      if_neg (show ¬ n > defaultConfig.max_amount by simp [defaultConfig]; omega)]
    simp only [hfind]
  · simp only [approve_transaction, List.append_eq, hfind]
    rw [if_neg (by simp), if_pos (Or.inl trivial)]
    refine ⟨rfl, { a with pending := a.pending + n + -n, amount := a.amount + n },
      ?_, by simp [hpend], by simp⟩
    rw [findByAccountNo_updatePendingAndAmount_self, e1]
    rfl
  · simp only [deny_transaction, List.append_eq, hfind]
    rw [if_neg (by simp), if_pos (Or.inl trivial)]
    refine ⟨rfl, { a with pending := a.pending + n + -n }, ?_,
      by simp [hpend], by simp⟩
    rw [findByAccountNo_updatePending_self, e1]
    rfl

/-- C2: from an account with `pending = 0` and `amount ≥ n`, `withdraw`
followed by `approve_transaction` leaves `pending = 0` and lowers `amount`
by `n`; `withdraw` followed by `deny_transaction` instead leaves
`pending = 0` and `amount` unchanged. -/
theorem withdraw_roundtrip_approve_deny (s : BankState) (u m op : String)
    (n : Int) (a : Account)
    (hacc : findByAccountNo s.accounts (getAccountNo u) = some a)
    (hpend : a.pending = 0) (hamt : n ≤ a.amount)
    (h1 : 1 ≤ n) (h2 : n ≤ 1000000000000)
    (hfresh : ∀ t ∈ s.transactions, t.id < s.nextTxnId) :
    ∃ s1 txn,
      withdraw defaultConfig s u n m = (s1, .ok (some txn)) ∧
      ((approve_transaction s1 txn.id op).2 = .ok () ∧
        ∃ a', findByAccountNo (approve_transaction s1 txn.id op).1.accounts
            (getAccountNo u) = some a' ∧ a'.pending = 0 ∧
            a'.amount = a.amount - n) ∧
      ((deny_transaction s1 txn.id op).2 = .ok () ∧
        ∃ a', findByAccountNo (deny_transaction s1 txn.id op).1.accounts
            (getAccountNo u) = some a' ∧ a'.pending = 0 ∧
            a'.amount = a.amount) := by
  have hfind : findTxnById
      (s.transactions ++
        [⟨s.nextTxnId, "withdraw", s.now, getAccountNo u, getAccountNo u,
          "pending", n, none, m⟩]) s.nextTxnId = some
      ⟨s.nextTxnId, "withdraw", s.now, getAccountNo u, getAccountNo u,
        "pending", n, none, m⟩ :=
    findTxnById_append_fresh _ _ hfresh
  have e1 : findByAccountNo (updatePending s.accounts (getAccountNo u) (-n))
      (getAccountNo u) = some { a with pending := a.pending + -n } := by
    rw [findByAccountNo_updatePending_self, hacc]; rfl
  refine ⟨{ s with
      accounts := updatePending s.accounts (getAccountNo u) (-n),
      transactions := s.transactions ++
        [⟨s.nextTxnId, "withdraw", s.now, getAccountNo u, getAccountNo u,
          "pending", n, none, m⟩],
      nextTxnId := s.nextTxnId + 1, now := s.now + 1 },
    ⟨s.nextTxnId, "withdraw", s.now, getAccountNo u, getAccountNo u,
      "pending", n, none, m⟩, ?_, ?_, ?_⟩
  · simp only [withdraw, hacc]
    rw [if_neg (by omega), if_neg (by omega),
      if_neg (show ¬ n > defaultConfig.max_amount by simp [defaultConfig]; omega),
      if_neg (by omega)]
    simp only [hfind]
  · simp only [approve_transaction, List.append_eq, hfind]
    rw [if_neg (by simp), if_neg (by simp), if_pos (Or.inl trivial)]
    refine ⟨rfl, { a with pending := a.pending + -n + n, amount := a.amount + -n },
      ?_, by simp [hpend], by simp; omega⟩
    rw [findByAccountNo_updatePendingAndAmount_self, e1]
    rfl
  · simp only [deny_transaction, List.append_eq, hfind]
    rw [if_neg (by simp), if_neg (by simp), if_pos (Or.inl trivial)]
    refine ⟨rfl, { a with pending := a.pending + -n + n }, ?_,
      by simp [hpend], by simp⟩
    rw [findByAccountNo_updatePending_self, e1]
    rfl

theorem findByAccountNo_append_left (l : List Account) (x : Account)
    (no : String) (a : Account) (h : findByAccountNo l no = some a) :
    findByAccountNo (l ++ [x]) no = some a := by
  unfold findByAccountNo at *
  rw [List.find?_append, h, Option.or_some]

theorem findByAccountNo_append_new (l : List Account) (x : Account)
    (h : findByAccountNo l x.account_no = none) :
    findByAccountNo (l ++ [x]) x.account_no = some x := by
  unfold findByAccountNo at *
  rw [List.find?_append, h, Option.none_or]
  simp [List.find?]

/-- C4: with an existing sender, a distinct receiver number and a positive
amount, `transfer` fails with `InsufficientBalance` exactly when
`amount > sender.amount` or `sender.amount − amount < min_balance` — both
against the settled amount only — and on success it moves `amount` from the
sender's settled balance to the receiver's (auto-creating a missing
receiver, which then ends with `amount` and zero pending), touches neither
account's `pending`, and returns a transaction in `"done"` status. -/
theorem transfer_spec (s : BankState) (fu tu m : String) (amt : Int)
    (sender : Account)
    (hacc : findByAccountNo s.accounts (getAccountNo fu) = some sender)
    (hne : getAccountNo fu ≠ getAccountNo tu)
    (hpos : 0 < amt)
    (hfresh : ∀ t ∈ s.transactions, t.id < s.nextTxnId) :
    ((transfer defaultConfig s fu tu amt m).2 = .error .insufficientBalance ↔
      amt > sender.amount ∨ sender.amount - amt < -1000000000) ∧
    (amt ≤ sender.amount → -1000000000 ≤ sender.amount - amt →
      (∃ txn, (transfer defaultConfig s fu tu amt m).2 = .ok (some txn) ∧
        txn.status = "done" ∧ txn.amount = amt) ∧
      (∃ snd, findByAccountNo (transfer defaultConfig s fu tu amt m).1.accounts
          (getAccountNo fu) = some snd ∧
        snd.amount = sender.amount - amt ∧ snd.pending = sender.pending) ∧
      (∀ recv, findByAccountNo s.accounts (getAccountNo tu) = some recv →
        ∃ r, findByAccountNo (transfer defaultConfig s fu tu amt m).1.accounts
            (getAccountNo tu) = some r ∧
          r.amount = recv.amount + amt ∧ r.pending = recv.pending) ∧
      (findByAccountNo s.accounts (getAccountNo tu) = none →
        ∃ r, findByAccountNo (transfer defaultConfig s fu tu amt m).1.accounts
            (getAccountNo tu) = some r ∧
          r.amount = amt ∧ r.pending = 0 ∧ r.name = tu)) := by
  have hne' : getAccountNo tu ≠ getAccountNo fu := fun h => hne h.symm
  constructor
  · simp only [transfer, hacc, defaultConfig]
    rw [if_neg hne, if_neg (by omega), if_neg (by omega)]
    split_ifs <;> simp <;> omega
  · intro hsuff hfloor
    cases hrecv : findByAccountNo s.accounts (getAccountNo tu) with
    | some recv =>
      have hex : accountExists s.accounts (getAccountNo tu) = true := by
        simp [accountExists, hrecv]
      have hfind : findTxnById
          (s.transactions ++
            [⟨s.nextTxnId, "transfer", s.now, getAccountNo fu, getAccountNo tu,
              "done", amt, none, m⟩]) s.nextTxnId = some
          ⟨s.nextTxnId, "transfer", s.now, getAccountNo fu, getAccountNo tu,
            "done", amt, none, m⟩ :=
        findTxnById_append_fresh _ _ hfresh
      have hred : transfer defaultConfig s fu tu amt m = ({ s with
          accounts := updateAmount
            (updateAmount s.accounts (getAccountNo fu) (-amt))
            (getAccountNo tu) amt,
          transactions := s.transactions ++
            [⟨s.nextTxnId, "transfer", s.now, getAccountNo fu, getAccountNo tu,
              "done", amt, none, m⟩],
          nextTxnId := s.nextTxnId + 1, now := s.now + 1 },
          .ok (some ⟨s.nextTxnId, "transfer", s.now, getAccountNo fu,
            getAccountNo tu, "done", amt, none, m⟩)) := by
        simp only [transfer, hacc, hex, if_true]
        rw [if_neg hne, if_neg (by omega), if_neg (by omega), if_neg (by omega),
          if_neg (show ¬ sender.amount - amt < defaultConfig.min_balance by
            simp [defaultConfig]; omega)]
        simp only [hfind]
      simp only [hred]
      refine ⟨⟨_, rfl, rfl, rfl⟩, ?_, ?_, ?_⟩
      · refine ⟨{ sender with amount := sender.amount + -amt }, ?_,
          by show sender.amount + -amt = sender.amount - amt; omega, rfl⟩
        rw [findByAccountNo_updateAmount_ne _ _ _ _ hne,
          findByAccountNo_updateAmount_self, hacc]
        rfl
      · intro recv' h'
        injection h' with h'
        subst h'
        refine ⟨{ recv with amount := recv.amount + amt }, ?_, rfl, rfl⟩
        rw [findByAccountNo_updateAmount_self,
          findByAccountNo_updateAmount_ne _ _ _ _ hne', hrecv]
        rfl
      · intro h0
        cases h0
    | none =>
      have hex : accountExists s.accounts (getAccountNo tu) = false := by
        simp [accountExists, hrecv]
      have hsender1 : findByAccountNo
          (s.accounts ++ [⟨s.nextAccountId, getAccountNo tu, tu, 0, 0, 0⟩])
          (getAccountNo fu) = some sender :=
        findByAccountNo_append_left _ _ _ _ hacc
      have hrecv1 : findByAccountNo
          (s.accounts ++ [⟨s.nextAccountId, getAccountNo tu, tu, 0, 0, 0⟩])
          (getAccountNo tu) = some ⟨s.nextAccountId, getAccountNo tu, tu, 0, 0, 0⟩ :=
        findByAccountNo_append_new _ _ hrecv
      have hfind : findTxnById
          (s.transactions ++
            [⟨s.nextTxnId, "transfer", s.now, getAccountNo fu, getAccountNo tu,
              "done", amt, none, m⟩]) s.nextTxnId = some
          ⟨s.nextTxnId, "transfer", s.now, getAccountNo fu, getAccountNo tu,
            "done", amt, none, m⟩ :=
        findTxnById_append_fresh _ _ hfresh
      have hred : transfer defaultConfig s fu tu amt m = ({ s with
          accounts := updateAmount
            (updateAmount
              (s.accounts ++ [⟨s.nextAccountId, getAccountNo tu, tu, 0, 0, 0⟩])
              (getAccountNo fu) (-amt))
            (getAccountNo tu) amt,
          transactions := s.transactions ++
            [⟨s.nextTxnId, "transfer", s.now, getAccountNo fu, getAccountNo tu,
              "done", amt, none, m⟩],
          nextAccountId := s.nextAccountId + 1,
          nextTxnId := s.nextTxnId + 1, now := s.now + 1 },
          .ok (some ⟨s.nextTxnId, "transfer", s.now, getAccountNo fu,
            getAccountNo tu, "done", amt, none, m⟩)) := by
        simp only [transfer, create_account, hacc, hex, accountExists, hrecv,
          Option.isSome_none, Bool.false_eq_true, if_false]
        rw [if_neg hne, if_neg (by omega), if_neg (by omega), if_neg (by omega),
          if_neg (show ¬ sender.amount - amt < defaultConfig.min_balance by
            simp [defaultConfig]; omega)]
        simp only [hfind]
      simp only [hred]
      refine ⟨⟨_, rfl, rfl, rfl⟩, ?_, ?_, ?_⟩
      · refine ⟨{ sender with amount := sender.amount + -amt }, ?_,
          by show sender.amount + -amt = sender.amount - amt; omega, rfl⟩
        rw [findByAccountNo_updateAmount_ne _ _ _ _ hne,
          findByAccountNo_updateAmount_self, hsender1]
        rfl
      · intro recv' h'
        cases h'
      · intro _
        refine ⟨⟨s.nextAccountId, getAccountNo tu, tu, 0 + amt, 0, 0⟩, ?_,
          by show (0 : Int) + amt = amt; omega, rfl, rfl⟩
        rw [findByAccountNo_updateAmount_self,
          findByAccountNo_updateAmount_ne _ _ _ _ hne', hrecv1]
        rfl

/-- C3 (counterexample): with an existing sender holding 2×10^12 settled,
`transfer` of 10^12 + 1 — above the configured per-operation ceiling —
succeeds instead of failing with `InvalidAmount`: the source's `transfer`
never consults `max_amount`. -/
theorem transfer_ceiling_counterexample :
    accountExists cexState.accounts (getAccountNo "sender123") = true ∧
    (2000000000000 : Int) ≥ 1000000000001 ∧
    (transfer defaultConfig cexState "sender123" "recv12345"
        1000000000001 "").2
      = .ok (some ⟨1, "transfer", 0, "sender123", "recv12345", "done",
          1000000000001, none, ""⟩) :=
  ⟨rfl, by norm_num, rfl⟩

/-- C3 (amended): `transfer` enforces no per-operation ceiling at all: for
an existing sender and a distinct receiver number, it fails with
`InvalidAmount` exactly when the amount is ≤ 0 — an amount exceeding 10^12
is not rejected as invalid. -/
theorem transfer_no_ceiling (s : BankState) (fu tu m : String) (amt : Int)
    (sender : Account)
    (hacc : findByAccountNo s.accounts (getAccountNo fu) = some sender)
    (hne : getAccountNo fu ≠ getAccountNo tu) :
    (transfer defaultConfig s fu tu amt m).2 = .error .invalidAmount ↔
      amt ≤ 0 := by
  simp only [transfer, hacc]
  rw [if_neg hne]
  split_ifs <;> simp <;> omega

/-- Witness for C3's amended theorem at a concrete state. -/
theorem transfer_no_ceiling_witness :
    findByAccountNo cexState.accounts (getAccountNo "sender123")
        = some ⟨1, "sender123", "S", 2000000000000, 0, 0⟩ ∧
    ((transfer defaultConfig cexState "sender123" "recv12345"
        1000000000001 "").2 = .error .invalidAmount ↔
      (1000000000001 : Int) ≤ 0) :=
  ⟨rfl, transfer_no_ceiling cexState "sender123" "recv12345" "" 1000000000001
    ⟨1, "sender123", "S", 2000000000000, 0, 0⟩ rfl (by decide)⟩

/-- Witness for C1 at a concrete account with 500 settled, 0 pending. -/
theorem deposit_roundtrip_approve_deny_witness :
    findByAccountNo wState.accounts (getAccountNo "1234567890")
        = some ⟨1, "234567890", "tester", 500, 0, 0⟩ ∧
    ∃ s1 txn,
      deposit defaultConfig wState "1234567890" 1000 "" = (s1, .ok (some txn)) ∧
      ((approve_transaction s1 txn.id "admin").2 = .ok () ∧
        ∃ a', findByAccountNo (approve_transaction s1 txn.id "admin").1.accounts
            (getAccountNo "1234567890") = some a' ∧ a'.pending = 0 ∧
            a'.amount = 500 + 1000) ∧
      ((deny_transaction s1 txn.id "admin").2 = .ok () ∧
        ∃ a', findByAccountNo (deny_transaction s1 txn.id "admin").1.accounts
            (getAccountNo "1234567890") = some a' ∧ a'.pending = 0 ∧
            a'.amount = 500) :=
  ⟨rfl, deposit_roundtrip_approve_deny wState "1234567890" "" "admin" 1000
    ⟨1, "234567890", "tester", 500, 0, 0⟩ rfl rfl (by norm_num) (by norm_num)
    (by intro t ht; cases ht)⟩

/-- Witness for C2 at the same concrete account, withdrawing 200. -/
theorem withdraw_roundtrip_approve_deny_witness :
    findByAccountNo wState.accounts (getAccountNo "1234567890")
        = some ⟨1, "234567890", "tester", 500, 0, 0⟩ ∧
    ∃ s1 txn,
      withdraw defaultConfig wState "1234567890" 200 "" = (s1, .ok (some txn)) ∧
      ((approve_transaction s1 txn.id "admin").2 = .ok () ∧
        ∃ a', findByAccountNo (approve_transaction s1 txn.id "admin").1.accounts
            (getAccountNo "1234567890") = some a' ∧ a'.pending = 0 ∧
            a'.amount = 500 - 200) ∧
      ((deny_transaction s1 txn.id "admin").2 = .ok () ∧
        ∃ a', findByAccountNo (deny_transaction s1 txn.id "admin").1.accounts
            (getAccountNo "1234567890") = some a' ∧ a'.pending = 0 ∧
            a'.amount = 500) :=
  ⟨rfl, withdraw_roundtrip_approve_deny wState "1234567890" "" "admin" 200
    ⟨1, "234567890", "tester", 500, 0, 0⟩ rfl rfl (by norm_num) (by norm_num)
    (by norm_num) (by intro t ht; cases ht)⟩

/-- Witness for C4: transfer 100 from the account holding 500 to a fresh
receiver. -/
theorem transfer_spec_witness :
    findByAccountNo wState.accounts (getAccountNo "1234567890")
        = some ⟨1, "234567890", "tester", 500, 0, 0⟩ ∧
    (((transfer defaultConfig wState "1234567890" "99999" 100 "t").2
        = .error .insufficientBalance ↔
      (100 : Int) > 500 ∨ (500 : Int) - 100 < -1000000000) ∧
    ((100 : Int) ≤ 500 → (-1000000000 : Int) ≤ 500 - 100 →
      (∃ txn, (transfer defaultConfig wState "1234567890" "99999" 100 "t").2
          = .ok (some txn) ∧ txn.status = "done" ∧ txn.amount = 100) ∧
      (∃ snd, findByAccountNo
          (transfer defaultConfig wState "1234567890" "99999" 100 "t").1.accounts
          (getAccountNo "1234567890") = some snd ∧
        snd.amount = 500 - 100 ∧ snd.pending = 0) ∧
      (∀ recv, findByAccountNo wState.accounts (getAccountNo "99999")
          = some recv →
        ∃ r, findByAccountNo
            (transfer defaultConfig wState "1234567890" "99999" 100 "t").1.accounts
            (getAccountNo "99999") = some r ∧
          r.amount = recv.amount + 100 ∧ r.pending = recv.pending) ∧
      (findByAccountNo wState.accounts (getAccountNo "99999") = none →
        ∃ r, findByAccountNo
            (transfer defaultConfig wState "1234567890" "99999" 100 "t").1.accounts
            (getAccountNo "99999") = some r ∧
          r.amount = 100 ∧ r.pending = 0 ∧ r.name = "99999"))) :=
  ⟨rfl, transfer_spec wState "1234567890" "99999" "t" 100
    ⟨1, "234567890", "tester", 500, 0, 0⟩ rfl (by decide) (by norm_num)
    (by intro t ht; cases ht)⟩

/-- Witness for C5: withdrawing 1000 from 500 available. -/
theorem withdraw_insufficient_balance_witness :
    findByAccountNo wState.accounts (getAccountNo "1234567890")
        = some ⟨1, "234567890", "tester", 500, 0, 0⟩ ∧
    (((withdraw defaultConfig wState "1234567890" 1000 "").2
        = .error .insufficientBalance ↔ (1000 : Int) > 500 - 0) ∧
    ((1000 : Int) > 500 - 0 →
      withdraw defaultConfig wState "1234567890" 1000 ""
        = (wState, .error .insufficientBalance))) :=
  ⟨rfl, withdraw_insufficient_balance wState "1234567890" "" 1000
    ⟨1, "234567890", "tester", 500, 0, 0⟩ rfl (by norm_num) (by norm_num)⟩

/-- Witness for C6 at a `done` transaction. -/
theorem nonpending_audit_rejected_witness :
    findTxnById wStateDone.transactions 1
        = some ⟨1, "deposit", 0, "234567890", "234567890", "done", 5,
            some "admin", ""⟩ ∧
    (approve_transaction wStateDone 1 "op2"
        = (wStateDone, .error .invalidTransactionStatus) ∧
      deny_transaction wStateDone 1 "op2"
        = (wStateDone, .error .invalidTransactionStatus)) :=
  ⟨rfl, nonpending_audit_rejected wStateDone 1 "op2"
    ⟨1, "deposit", 0, "234567890", "234567890", "done", 5, some "admin", ""⟩
    rfl (by decide)⟩

/-- Witness for C7 at the deposit ceiling. -/
theorem deposit_request_amount_bounds_witness :
    findByAccountNo wState.accounts (getAccountNo "1234567890")
        = some ⟨1, "234567890", "tester", 500, 0, 0⟩ ∧
    (((deposit defaultConfig wState "1234567890" 1000000000000 "").2
        = .error .invalidAmount ↔
      (1000000000000 : Int) ≤ 0 ∨ (1000000000000 : Int) > 1000000000000) ∧
    ((∃ r, (deposit defaultConfig wState "1234567890" 1000000000000 "").2
        = .ok r) ↔
      (1 : Int) ≤ 1000000000000 ∧ (1000000000000 : Int) ≤ 1000000000000) ∧
    (((request wState "1234567890" 1000000000000 "").2
        = .error .invalidAmount ↔
      (1000000000000 : Int) ≤ 0 ∨ (1000000000000 : Int) > 100000000000) ∧
    ((∃ r, (request wState "1234567890" 1000000000000 "").2 = .ok r) ↔
      (1 : Int) ≤ 1000000000000 ∧ (1000000000000 : Int) ≤ 100000000000))) :=
  ⟨rfl, deposit_request_amount_bounds wState "1234567890" "" 1000000000000
    ⟨1, "234567890", "tester", 500, 0, 0⟩ rfl⟩

/-- C8: `pull_transactions(user, n)` returns only transactions where the
user's account is sender or receiver and whose status is not `denied`
(in particular never a denied one), holds at most `n` entries, and is
ordered most-recent-id-first. -/
theorem pull_transactions_spec (s : BankState) (u : String) (n : Nat) :
    (∀ t ∈ pull_transactions s u n,
      (t.sender_account = getAccountNo u ∨
        t.receiver_account = getAccountNo u) ∧ t.status ≠ "denied") ∧
    (pull_transactions s u n).length ≤ n ∧
    List.Sorted newestFirst (pull_transactions s u n) := by
  refine ⟨?_, ?_, ?_⟩
  · intro t ht
    have h1 : t ∈ List.insertionSort newestFirst
        (s.transactions.filter (fun t =>
          (t.sender_account == getAccountNo u ||
            t.receiver_account == getAccountNo u) && t.status != "denied")) :=
      (List.take_sublist n _).subset ht
    have h2 := (List.mem_insertionSort newestFirst).mp h1
    have h3 := (List.mem_filter.mp h2).2
    simpa [Bool.and_eq_true, Bool.or_eq_true, beq_iff_eq, bne_iff_ne] using h3
  · simp only [pull_transactions, findByAccount, List.length_take]
    exact Nat.min_le_left n _
  · exact List.Pairwise.sublist (List.take_sublist n _)
      (List.sorted_insertionSort newestFirst _)

/-- C9: `get_pending_transactions(limit)` returns only `pending`
transactions, at most `limit` of them, as a subsequence of the insertion
order, and contains every pending transaction whenever the pending count
fits within `limit`. -/
theorem get_pending_transactions_spec (s : BankState) (limit : Nat) :
    (∀ t ∈ get_pending_transactions s limit, t.status = "pending") ∧
    (get_pending_transactions s limit).length ≤ limit ∧
    List.Sublist (get_pending_transactions s limit) s.transactions ∧
    ((s.transactions.filter (fun t => t.status == "pending")).length ≤ limit →
      ∀ t ∈ s.transactions, t.status = "pending" →
        t ∈ get_pending_transactions s limit) := by
  refine ⟨?_, ?_, ?_, ?_⟩
  · intro t ht
    have h1 : t ∈ s.transactions.filter (fun t => t.status == "pending") :=
      (List.take_sublist limit _).subset ht
    have h2 := (List.mem_filter.mp h1).2
    simpa [beq_iff_eq] using h2
  · simp only [get_pending_transactions, findPendingTransactions,
      List.length_take]
    exact Nat.min_le_left limit _
  · exact (List.take_sublist limit _).trans (List.filter_sublist _)
  · intro hlen t ht hst
    unfold get_pending_transactions findPendingTransactions
    rw [List.take_of_length_le hlen]
    exact List.mem_filter.mpr ⟨ht, by simp [hst]⟩

/-- Witness for C8 at a concrete state holding a done transaction. -/
theorem pull_transactions_spec_witness :
    (∀ t ∈ pull_transactions wStateDone "1234567890" 5,
      (t.sender_account = getAccountNo "1234567890" ∨
        t.receiver_account = getAccountNo "1234567890") ∧
        t.status ≠ "denied") ∧
    (pull_transactions wStateDone "1234567890" 5).length ≤ 5 ∧
    List.Sorted newestFirst (pull_transactions wStateDone "1234567890" 5) :=
  pull_transactions_spec wStateDone "1234567890" 5

/-- Witness for C9 at the same concrete state. -/
theorem get_pending_transactions_spec_witness :
    (∀ t ∈ get_pending_transactions wStateDone 5, t.status = "pending") ∧
    (get_pending_transactions wStateDone 5).length ≤ 5 ∧
    List.Sublist (get_pending_transactions wStateDone 5) wStateDone.transactions ∧
    ((wStateDone.transactions.filter
        (fun t => t.status == "pending")).length ≤ 5 →
      ∀ t ∈ wStateDone.transactions, t.status = "pending" →
        t ∈ get_pending_transactions wStateDone 5) :=
  get_pending_transactions_spec wStateDone 5

theorem txnInv_of_eq {s s' : BankState} (h : TxnInv s)
    (he : s'.transactions = s.transactions) : TxnInv s' := by
  intro t ht
  exact h t (he ▸ ht)

theorem txnInv_create (s : BankState) (u nm : String) (h : TxnInv s) :
    TxnInv (create_account s u nm).1 := by
  simp only [create_account]
  split_ifs
  · exact h
  · exact txnInv_of_eq h rfl

theorem txnInv_updateStatus (s : BankState) (id : Nat) (st op : String)
    (hst : st ≠ "pending") (h : TxnInv s) :
    ∀ t ∈ updateStatus s.transactions id st op, PendingOk t := by
  intro t ht
  unfold updateStatus at ht
  rcases List.mem_map.mp ht with ⟨t0, ht0, rfl⟩
  by_cases hc : (t0.id == id) = true
  · rw [if_pos hc]
    intro hs
    exact absurd hs hst
  · rw [if_neg hc]
    exact h t0 ht0

theorem txnInv_deposit (cfg : Config) (s : BankState) (u : String) (n : Int)
    (m : String) (h : TxnInv s) : TxnInv (deposit cfg s u n m).1 := by
  cases hf : findByAccountNo s.accounts (getAccountNo u) with
  | none => simpa [deposit, hf] using h
  | some a =>
    simp only [deposit, hf]
    split_ifs
    · exact h
    · exact h
    · exact h
    · intro t ht
      simp only [List.mem_append, List.mem_singleton] at ht
      rcases ht with ht | rfl
      · exact h t ht
      · intro _
        exact ⟨rfl, Or.inl rfl⟩

theorem txnInv_withdraw (cfg : Config) (s : BankState) (u : String) (n : Int)
    (m : String) (h : TxnInv s) : TxnInv (withdraw cfg s u n m).1 := by
  cases hf : findByAccountNo s.accounts (getAccountNo u) with
  | none => simpa [withdraw, hf] using h
  | some a =>
    simp only [withdraw, hf]
    split_ifs
    · exact h
    · exact h
    · exact h
    · exact h
    · intro t ht
      simp only [List.mem_append, List.mem_singleton] at ht
      rcases ht with ht | rfl
      · exact h t ht
      · intro _
        exact ⟨rfl, Or.inr (Or.inl rfl)⟩

theorem txnInv_request (s : BankState) (u : String) (n : Int)
    (m : String) (h : TxnInv s) : TxnInv (request s u n m).1 := by
  cases hf : findByAccountNo s.accounts (getAccountNo u) with
  | none => simpa [request, hf] using h
  | some a =>
    simp only [request, hf]
    split_ifs
    · exact h
    · exact h
    · exact h
    · intro t ht
      simp only [List.mem_append, List.mem_singleton] at ht
      rcases ht with ht | rfl
      · exact h t ht
      · intro _
        exact ⟨rfl, Or.inr (Or.inr (Or.inl rfl))⟩

theorem txnInv_donate (cfg : Config) (s : BankState) (u : String) (n : Int)
    (m : String) (h : TxnInv s) : TxnInv (donate cfg s u n m).1 := by
  cases hf : findByAccountNo s.accounts (getAccountNo u) with
  | none => simpa [donate, hf] using h
  | some a =>
    simp only [donate, hf]
    split_ifs
    · exact h
    · exact h
    · exact h
    · exact h
    · intro t ht
      simp only [List.mem_append, List.mem_singleton] at ht
      rcases ht with ht | rfl
      · exact h t ht
      · intro _
        exact ⟨rfl, Or.inr (Or.inr (Or.inr rfl))⟩

theorem txnInv_transfer (cfg : Config) (s : BankState) (fu tu : String)
    (n : Int) (m : String) (h : TxnInv s) :
    TxnInv (transfer cfg s fu tu n m).1 := by
  cases hf : findByAccountNo s.accounts (getAccountNo fu) with
  | none => simpa [transfer, hf] using h
  | some sender =>
    simp only [transfer, hf]
    split_ifs
    all_goals
      first
      | exact h
      | exact txnInv_create s tu tu h
      | (intro t ht
         simp only [List.mem_append, List.mem_singleton] at ht
         rcases ht with ht | rfl
         · exact h t ht
         · intro hs
           simp at hs)
      | (intro t ht
         simp only [List.mem_append, List.mem_singleton] at ht
         rcases ht with ht | rfl
         · exact txnInv_create s tu tu h t ht
         · intro hs
           simp at hs)

theorem txnInv_approve (s : BankState) (id : Nat) (op : String)
    (h : TxnInv s) : TxnInv (approve_transaction s id op).1 := by
  cases hf : findTxnById s.transactions id with
  | none => simpa [approve_transaction, hf] using h
  | some t =>
    simp only [approve_transaction, hf]
    split_ifs
    · exact h
    all_goals exact txnInv_updateStatus s id "done" op (by decide) h

theorem txnInv_deny (s : BankState) (id : Nat) (op : String)
    (h : TxnInv s) : TxnInv (deny_transaction s id op).1 := by
  cases hf : findTxnById s.transactions id with
  | none => simpa [deny_transaction, hf] using h
  | some t =>
    simp only [deny_transaction, hf]
    split_ifs
    · exact h
    · exact txnInv_updateStatus s id "denied" op (by decide) h
    · exact txnInv_updateStatus s id "denied" op (by decide) h
    · exact h
    · exact txnInv_updateStatus s id "denied" op (by decide) h

theorem reachable_txnInv {s : BankState} (h : Reachable s) : TxnInv s := by
  induction h with
  | init => intro t ht; cases ht
  | step_create u nm _ ih => exact txnInv_create _ u nm ih
  | step_deposit cfg u n m _ ih => exact txnInv_deposit cfg _ u n m ih
  | step_withdraw cfg u n m _ ih => exact txnInv_withdraw cfg _ u n m ih
  | step_request u n m _ ih => exact txnInv_request _ u n m ih
  | step_donate cfg u n m _ ih => exact txnInv_donate cfg _ u n m ih
  | step_transfer cfg fu tu n m _ ih => exact txnInv_transfer cfg _ fu tu n m ih
  | step_approve id op _ ih => exact txnInv_approve _ id op ih
  | step_deny id op _ ih => exact txnInv_deny _ id op ih

/-- C10: in every reachable state, every pending transaction has
`sender_account = receiver_account` and a type among deposit, withdraw,
request and donate, so the fallback branches of `approve_transaction` and
`deny_transaction` never run: in particular `deny_transaction` can never
raise the `TypeError` hidden in its fallback's bad
`update_pending(pending_delta=...)` call. -/
theorem pending_invariant_no_fallback (s : BankState) (h : Reachable s) :
    (∀ t ∈ s.transactions, t.status = "pending" →
      t.sender_account = t.receiver_account ∧
        (t.type = "deposit" ∨ t.type = "withdraw" ∨ t.type = "request" ∨
          t.type = "donate")) ∧
    (∀ id op, (deny_transaction s id op).2 ≠ .error .pythonTypeError) := by
  have hinv := reachable_txnInv h
  refine ⟨hinv, ?_⟩
  intro id op
  cases hfind : findTxnById s.transactions id with
  | none => simp [deny_transaction, hfind]
  | some t =>
    by_cases hst : t.status = "pending"
    · have hfind' : List.find? (fun t => t.id == id) s.transactions = some t :=
        hfind
      have hmem := List.mem_of_find?_eq_some hfind'
      have hok := hinv t hmem hst
      rcases hok.2 with h1 | h1 | h1 | h1 <;>
        simp [deny_transaction, hfind, hst, h1]
    · simp [deny_transaction, hfind, hst]

/-- Witness for C10: a reachable state produced by registering an account
and depositing into it. -/
theorem pending_invariant_no_fallback_witness :
    (∀ t ∈ (deposit defaultConfig
        (create_account initState "1234567890" "tester").1
        "1234567890" 5 "").1.transactions, t.status = "pending" →
      t.sender_account = t.receiver_account ∧
        (t.type = "deposit" ∨ t.type = "withdraw" ∨ t.type = "request" ∨
          t.type = "donate")) ∧
    (∀ id op, (deny_transaction (deposit defaultConfig
        (create_account initState "1234567890" "tester").1
        "1234567890" 5 "").1 id op).2 ≠ .error .pythonTypeError) :=
  pending_invariant_no_fallback _
    (Reachable.step_deposit defaultConfig "1234567890" 5 ""
      (Reachable.step_create "1234567890" "tester" Reachable.init))

end TeaBank
